import Mathlib

/-!
Shallow embedding of the rust-apns notification client core
(repository eklipse2k8/rust-apns, crate rust-apns-core).

Translated modules present under the repository source:
  * request/collapse.rs  : CollapseId
  * request/priority.rs  : Priority and its wire rendering
  * notification.rs      : DataNotification, AlertNotification,
                           PushNotification and build_request
  * client/client.rs     : Client, build_request, send

Modules referenced by the code but whose files are not part of the
provided sources (request/request.rs, request/payload.rs,
client/endpoint.rs, client/header.rs, client/signer.rs, response) are
modelled from the specification; each such definition carries a doc
comment beginning with "Modelled from the spec:".
-/

namespace Apns

/-- Modelled from the spec: minimal JSON value type standing for
serde_json::Value, the free-form payload carried by data notifications. -/
inductive Json where
  | null : Json
  | bool (b : Bool) : Json
  | num (n : Int) : Json
  | str (s : String) : Json
  | arr (elems : List Json) : Json
  | obj (fields : List (String × Json)) : Json

/-- Modelled from the spec: Endpoint enum of client/endpoint.rs (file not
under the provided sources), enumerated value of Production, Development. -/
inductive Endpoint where
  | Production : Endpoint
  | Development : Endpoint
deriving DecidableEq

/-- Modelled from the spec: each Endpoint maps to a fixed base URL,
https api.push.apple.com for Production and
https api.development.push.apple.com for Development. The Production base
is corroborated by the in-source test test_production_request_uri. -/
def Endpoint.base : Endpoint → String
  | .Production => "https://api.push.apple.com"
  | .Development => "https://api.development.push.apple.com"

/-- Modelled from the spec: Endpoint.as_url, the base URL extended with the
fixed request path prefix, so that joining a device token yields
base/3/device/token as asserted by test_production_request_uri. -/
def Endpoint.as_url (e : Endpoint) : String :=
  e.base ++ "/3/device/"

/-- Modelled from the spec: joining a device token onto the endpoint URL
(url crate join at the interface boundary, for opaque token strings). -/
def url_join (base token : String) : String :=
  base ++ token

/-- Priority of request/priority.rs: High or Normal. -/
inductive Priority where
  | High : Priority
  | Normal : Priority
deriving DecidableEq

/-- Wire rendering of Priority, translated from the fmt Display
implementation in request/priority.rs: High renders as 10, Normal as 5. -/
def Priority.display : Priority → String
  | .High => "10"
  | .Normal => "5"

/-- Modelled from the spec: the client-level priority enum re-exported from
client/header.rs (file not under the provided sources); includes the
power-aware ConsiderPower value used by notification.rs. -/
inductive HeaderPriority where
  | High : HeaderPriority
  | Normal : HeaderPriority
  | ConsiderPower : HeaderPriority
deriving DecidableEq

/-- Modelled from the spec: wire value of the apns-priority header; High
maps to 10, Normal to 5, and ConsiderPower is treated as Normal at the
wire level. -/
def HeaderPriority.wire : HeaderPriority → String
  | .High => "10"
  | .Normal => "5"
  | .ConsiderPower => "5"

/-- Modelled from the spec: PushType enum re-exported from client/header.rs
(file not under the provided sources); Alert and Background are the two
values produced by notification.rs. -/
inductive PushType where
  | Alert : PushType
  | Background : PushType
deriving DecidableEq

/-- Modelled from the spec: wire value of the apns-push-type header. -/
def PushType.wire : PushType → String
  | .Alert => "alert"
  | .Background => "background"

/-- Modelled from the spec: UUID wrapper; only its string rendering is
observed by this layer. -/
structure Uuid where
  value : String
deriving DecidableEq

/-- Modelled from the spec: interruption level enum of request/payload.rs
(file not under the provided sources); an optional enumerated urgency. -/
inductive InterruptionLevel where
  | Passive : InterruptionLevel
  | Active : InterruptionLevel
  | TimeSensitive : InterruptionLevel
  | Critical : InterruptionLevel
deriving DecidableEq

/-- Modelled from the spec: Alert body of request/payload.rs (file not
under the provided sources), optional title, body and subtitle. -/
structure Alert where
  title : Option String
  body : Option String
  subtitle : Option String
deriving DecidableEq

/-- Modelled from the spec: Sound of request/payload.rs (file not under
the provided sources); a named sound built from a string. -/
structure Sound where
  name : String
deriving DecidableEq

/-- Modelled from the spec: the From String conversion for Sound used by
notification.rs as alert.sound.map Sound::from. -/
def Sound.fromString (s : String) : Sound :=
  { name := s }

/-- Modelled from the spec: ErrorResponse of the response module (file not
under the provided sources), a structured reason string parsed from an
error body. -/
structure ErrorResponse where
  reason : String
deriving DecidableEq

/-- Modelled from the spec: Response of the response module (file not under
the provided sources): optional apns id, optional structured error, and
the numeric HTTP status code. -/
structure Response where
  apns_id : Option String
  error : Option ErrorResponse
  code : Nat
deriving DecidableEq

/-- Error enum translated from error.rs (payload-free where the Rust
variant only wraps a foreign error value). -/
inductive Error where
  | SerializeError : Error
  | ConnectionError : Error
  | SignerError : Error
  | ResponseError (response : Response) : Error
  | InvalidOptions (message : String) : Error
  | ReadError : Error
  | BuilderMissingField (field : String) : Error
deriving DecidableEq

/-- CollapseId translated from request/collapse.rs: a string wrapper. -/
structure CollapseId where
  value : String
deriving DecidableEq

/-- CollapseId constructor translated from request/collapse.rs: rejects a
value whose UTF-8 byte length exceeds 64 with InvalidOptions, otherwise
wraps the value unchanged. Rust str len is the UTF-8 byte count, embedded
here as String.utf8ByteSize. -/
def CollapseId.new (value : String) : Except Error CollapseId :=
  if value.utf8ByteSize > 64 then
    .error (.InvalidOptions "The collapse-id is too big. Maximum 64 bytes.")
  else
    .ok { value := value }

/-- Modelled from the spec: the canonical Request structure of
request/request.rs (file not under the provided sources), generic over the
user-info payload type exactly as the Rust Request of T. -/
structure Request (T : Type) where
  device_token : String
  push_type : PushType
  id : Option Uuid
  expiration : Option Int
  priority : HeaderPriority
  topic : Option String
  collapse_id : Option String
  content_available : Bool
  mutable_content : Bool
  alert : Option Alert
  badge : Option Nat
  sound : Option Sound
  interruption_level : Option InterruptionLevel
  user_info : Option T

/-- DataNotification translated from notification.rs: wraps a raw JSON
value. -/
structure DataNotification where
  value : Json

/-- AlertNotification translated from notification.rs: optional title,
body, sound and badge. -/
structure AlertNotification where
  title : Option String
  body : Option String
  sound : Option String
  badge : Option Nat

/-- PushNotification translated from notification.rs: the data-only and
alert variants. -/
inductive PushNotification where
  | Data (d : DataNotification) : PushNotification
  | Alert (a : AlertNotification) : PushNotification

/-- Seconds in one day; notification.rs adds Duration::days(1) to the
current time, embedded here over integer epoch seconds. -/
def one_day : Int := 86400

/-- PushNotification.build_request translated from notification.rs. Time
is passed explicitly as now in epoch seconds in place of the ambient
OffsetDateTime::now_utc(). Fields the Rust code leaves to the Request
Default implementation (file not under the provided sources) are written
out with their modelled defaults: booleans false, options absent. -/
def PushNotification.build_request (n : PushNotification) (topic : Option String)
    (collapse_id : Option CollapseId) (device_token : String) (uid : Uuid)
    (now : Int) : Except Error (Request Json) :=
  match n with
  | .Data d =>
      .ok { device_token := device_token
            push_type := .Background
            id := some uid
            expiration := some (now + one_day)
            priority := .ConsiderPower
            topic := topic
            collapse_id := collapse_id.map (fun c => c.value)
            content_available := true
            mutable_content := false
            alert := none
            badge := none
            sound := none
            interruption_level := none
            user_info := some d.value }
  | .Alert a =>
      .ok { device_token := device_token
            push_type := .Alert
            id := some uid
            expiration := some (now + one_day)
            priority := .ConsiderPower
            topic := topic
            collapse_id := collapse_id.map (fun c => c.value)
            content_available := false
            mutable_content := false
            alert := some { title := a.title, body := a.body, subtitle := none }
            badge := a.badge
            sound := a.sound.map Sound.fromString
            interruption_level := none
            user_info := none }

/-- Modelled from the spec: the Payload body of request/payload.rs (file
not under the provided sources): aps fields assembled from the Request
plus the user-info payload merged at the top level. -/
structure Payload (T : Type) where
  alert : Option Alert
  badge : Option Nat
  sound : Option Sound
  content_available : Bool
  mutable_content : Bool
  interruption_level : Option InterruptionLevel
  user_info : Option T

/-- Modelled from the spec: the payload half of the Request conversion
performed by req.try_into() inside Client::build_request. -/
def Request.to_payload {T : Type} (req : Request T) : Payload T :=
  { alert := req.alert
    badge := req.badge
    sound := req.sound
    content_available := req.content_available
    mutable_content := req.mutable_content
    interruption_level := req.interruption_level
    user_info := req.user_info }

/-- Helper for an optional header: absent option contributes no pair. -/
def opt_header (name : String) : Option String → List (String × String)
  | none => []
  | some v => [(name, v)]

/-- Modelled from the spec: the header half of the Request conversion
performed by req.try_into() inside Client::build_request. The conversion
receives only the Request (visible in the source call site), so it has no
access to a Signer and cannot contribute an authorization header; the
headers are the apns protocol headers of the spec plus content-type. -/
def payload_headers {T : Type} (req : Request T) : List (String × String) :=
  [("apns-push-type", req.push_type.wire),
   ("apns-priority", req.priority.wire),
   ("content-type", "application/json")]
  ++ opt_header "apns-id" (req.id.map Uuid.value)
  ++ opt_header "apns-expiration" (req.expiration.map (fun i => toString i))
  ++ opt_header "apns-topic" req.topic
  ++ opt_header "apns-collapse-id" req.collapse_id

/-- Modelled from the spec: Signer of client/signer.rs (file not under the
provided sources). Only its presence on a Client is observed by the
embedded request-building path. -/
structure Signer where
  key_id : String
  team_id : String
deriving DecidableEq

/-- Client translated from client/client.rs: one endpoint and an optional
Signer (the transport connection carries no request-shaping state and is
omitted). -/
structure Client where
  endpoint : Endpoint
  signer : Option Signer
deriving DecidableEq

/-- The wire request assembled by Client::build_request: method, URI,
header list and serialized body bytes. -/
structure WireRequest where
  method : String
  uri : String
  headers : List (String × String)
  body : List Nat
deriving DecidableEq

/-- Client::build_request translated from client/client.rs: joins the
device token onto the endpoint URL, converts the request into headers and
payload, serializes the payload, and assembles a POST request with exactly
those headers. The serde Serialize dictionary for the payload is passed
explicitly as serialize; a serialization failure maps to SerializeError
through the question-mark propagation in the source. No size check is
performed on the body (the size check in the source is commented out), and
no authorization header is added (that code path is commented out in the
source, although the struct stores a Signer). -/
def Client.build_request {T : Type} (c : Client)
    (serialize : Payload T → Except Unit (List Nat)) (req : Request T) :
    Except Error WireRequest :=
  let path := url_join c.endpoint.as_url req.device_token
  match serialize req.to_payload with
  | .error _ => .error .SerializeError
  | .ok body =>
      .ok { method := "POST"
            uri := path
            headers := payload_headers req
            body := body }

/-- The request-building prefix of Client::send translated from
client/client.rs: send calls self.build_request(req).unwrap(), so a
build_request error is not returned to the caller but panics; the panic is
embedded as none. -/
def Client.send_build_phase {T : Type} (c : Client)
    (serialize : Payload T → Except Unit (List Nat)) (req : Request T) :
    Option WireRequest :=
  (c.build_request serialize req).toOption

/-- Looks a header up by name in a header list, first match wins; embeds
response.headers().get(name) at the interface boundary. -/
def get_header (name : String) (headers : List (String × String)) : Option String :=
  (headers.find? (fun p => p.fst == name)).map (fun p => p.snd)

/-- An HTTP response at the interface boundary: status code, headers and
the already-read body bytes. -/
structure HttpResponse where
  status : Nat
  headers : List (String × String)
  body : List Nat

/-- The response-interpretation suffix of Client::send translated from
client/client.rs: extract the apns-id header, then on status 200 return
Ok with no error and the received status as code, otherwise return
ResponseError carrying the apns id, the opportunistically parsed body and
the received status. The serde parse of the error body, from_slice
followed by ok(), is passed explicitly as parse_reason returning none on a
malformed or absent body. -/
def Client.interpret_response (parse_reason : List Nat → Option ErrorResponse)
    (resp : HttpResponse) : Except Error Response :=
  let apns_id := get_header "apns-id" resp.headers
  if resp.status = 200 then
    .ok { apns_id := apns_id, error := none, code := resp.status }
  else
    .error (.ResponseError
      { apns_id := apns_id, error := parse_reason resp.body, code := resp.status })

/-- Auxiliary: a pair drawn from an optional header carries that header
name. -/
theorem mem_opt_header {name v : String} {p : String} {o : Option String}
    (h : (p, v) ∈ opt_header name o) : p = name := by
  cases o with
  | none => simp [opt_header] at h
  | some w => simp [opt_header] at h; exact h.1

/-- Auxiliary: payload_headers never contains an authorization header. -/
theorem payload_headers_no_auth {T : Type} (req : Request T) (v : String) :
    ("authorization", v) ∉ payload_headers req := by
  intro hmem
  unfold payload_headers at hmem
  simp only [List.append_assoc, List.mem_append] at hmem
  rcases hmem with h | h | h | h | h
  · simp [Prod.ext_iff] at h
  · exact absurd (mem_opt_header h) (by decide)
  · exact absurd (mem_opt_header h) (by decide)
  · exact absurd (mem_opt_header h) (by decide)
  · exact absurd (mem_opt_header h) (by decide)

/-- Auxiliary: the headers of a successfully built wire request are exactly
the payload headers of the request, for any client. -/
theorem build_request_ok_headers {T : Type} (c : Client)
    (serialize : Payload T → Except Unit (List Nat)) (req : Request T)
    (wr : WireRequest) (h : c.build_request serialize req = .ok wr) :
    wr.headers = payload_headers req ∧ wr.method = "POST" ∧
    wr.uri = url_join c.endpoint.as_url req.device_token := by
  unfold Client.build_request at h
  cases hs : serialize req.to_payload with
  | error e => rw [hs] at h; exact absurd h (by simp)
  | ok body =>
      rw [hs] at h
      simp only [Except.ok.injEq] at h
      subst h
      exact ⟨rfl, rfl, rfl⟩

/-- C1: the wire request built by Client::build_request carries no
authorization header at all, whatever the client and the request — in
particular a Client holding a Signer still issues requests without any
bearer authorization, because the code attaching the token is commented
out in the source. This refutes the claim that a Signer-bearing client
sends a bearer authorization header, while confirming its half about
signerless clients. -/
theorem build_request_never_adds_authorization {T : Type} (c : Client)
    (serialize : Payload T → Except Unit (List Nat)) (req : Request T)
    (wr : WireRequest) (h : c.build_request serialize req = .ok wr) :
    ∀ v : String, ("authorization", v) ∉ wr.headers := by
  intro v hmem
  rcases build_request_ok_headers c serialize req wr h with ⟨hh, _, _⟩
  rw [hh] at hmem
  exact payload_headers_no_auth req v hmem

/-- A concrete alert request mirroring the in-source test
test_production_request_uri: all-default alert notification, device token
a_test_id. -/
def req_example : Request Json :=
  { device_token := "a_test_id"
    push_type := .Alert
    id := some { value := "c7c654a6-0000-4000-8000-000000000000" }
    expiration := none
    priority := .ConsiderPower
    topic := none
    collapse_id := none
    content_available := false
    mutable_content := false
    alert := some { title := none, body := none, subtitle := none }
    badge := none
    sound := none
    interruption_level := none
    user_info := none }

/-- A serializer that always succeeds with an empty body. -/
def ser_ok : Payload Json → Except Unit (List Nat) := fun _ => .ok []

/-- A serializer that always fails, standing for a payload type whose serde
Serialize implementation reports an error. -/
def ser_fail : Payload Json → Except Unit (List Nat) := fun _ => .error ()

/-- A token-mode client: Production endpoint with a Signer present. -/
def client_token : Client :=
  { endpoint := .Production
    signer := some { key_id := "89AFRD1X22", team_id := "ASDFQWERTY" } }

/-- A certificate-mode client: Production endpoint, no Signer. -/
def client_prod : Client :=
  { endpoint := .Production, signer := none }

/-- The wire request built from req_example on the Production endpoint. -/
def wr_example : WireRequest :=
  { method := "POST"
    uri := "https://api.push.apple.com/3/device/a_test_id"
    headers := payload_headers req_example
    body := [] }

/-- Witness for C1: a concrete token-mode client builds req_example
successfully and the result carries no authorization header. -/
theorem build_request_never_adds_authorization_witness :
    (client_token.build_request ser_ok req_example = .ok wr_example) ∧
    (∀ v : String, ("authorization", v) ∉ wr_example.headers) :=
  ⟨rfl, build_request_never_adds_authorization client_token ser_ok
    req_example wr_example rfl⟩

/-- C2: Client::send interprets a received response as Ok exactly on
status 200, producing the apns-id header verbatim when present and none
when absent, no error and code 200; any other status yields ResponseError
carrying the same apns id, the opportunistically parsed body (none when
the parse fails) and the received status. -/
theorem interpret_response_spec (parse_reason : List Nat → Option ErrorResponse)
    (resp : HttpResponse) :
    Client.interpret_response parse_reason resp =
      if resp.status = 200 then
        .ok { apns_id := get_header "apns-id" resp.headers, error := none,
              code := 200 }
      else
        .error (.ResponseError
          { apns_id := get_header "apns-id" resp.headers,
            error := parse_reason resp.body, code := resp.status }) := by
  unfold Client.interpret_response
  split_ifs with h
  · rw [h]
  · rfl

/-- C3: a Request whose payload fails serialization makes
Client::build_request return SerializeError, but Client::send unwraps that
result and panics (embedded as none) instead of surfacing the error value
to its caller; and no payload-size limit exists: a successful serialization
of any length yields a successful build whose body is transmitted whole. -/
theorem send_unwrap_panics_on_serialize_error :
    (client_prod.build_request ser_fail req_example = .error .SerializeError) ∧
    (client_prod.send_build_phase ser_fail req_example = none) ∧
    (∀ n : Nat, ∃ wr : WireRequest,
      client_prod.build_request (fun _ => .ok (List.replicate n 0)) req_example
        = .ok wr ∧ wr.body = List.replicate n 0) := by
  refine ⟨rfl, rfl, fun n => ⟨_, rfl, rfl⟩⟩

/-- C4: CollapseId::new wraps its argument unchanged exactly when the
UTF-8 byte length is at most 64, and returns the InvalidOptions error
otherwise; no other validation or mutation occurs. -/
theorem collapse_id_new_spec (s : String) :
    CollapseId.new s =
      if s.utf8ByteSize ≤ 64 then .ok { value := s }
      else .error (.InvalidOptions "The collapse-id is too big. Maximum 64 bytes.") := by
  unfold CollapseId.new
  split_ifs with h1 h2 <;> first | rfl | omega

/-- C5: every successfully built wire request uses method POST and the URI
formed of the endpoint base, the fixed path /3/device/, and the device
token, independent of every other field of the request. -/
theorem build_request_uri_spec {T : Type} (c : Client)
    (serialize : Payload T → Except Unit (List Nat)) (req : Request T)
    (wr : WireRequest) (h : c.build_request serialize req = .ok wr) :
    wr.method = "POST" ∧
    wr.uri = c.endpoint.base ++ "/3/device/" ++ req.device_token := by
  rcases build_request_ok_headers c serialize req wr h with ⟨_, hm, hu⟩
  refine ⟨hm, ?_⟩
  rw [hu]
  unfold url_join Endpoint.as_url
  rw [String.append_assoc]

/-- Witness for C5: the concrete Production build of req_example, matching
the in-source test test_production_request_uri. -/
theorem build_request_uri_spec_witness :
    (client_prod.build_request ser_ok req_example = .ok wr_example) ∧
    (wr_example.method = "POST" ∧
     wr_example.uri = Endpoint.base .Production ++ "/3/device/" ++ "a_test_id") :=
  ⟨rfl, build_request_uri_spec client_prod ser_ok req_example wr_example rfl⟩

/-- C6: building a request from a data-only notification yields Background
push type, content available true, ConsiderPower priority, expiration one
day past now, user info equal to the raw JSON payload of the notification,
and no alert. -/
theorem data_build_request_spec (d : Json) (topic : Option String)
    (collapse_id : Option CollapseId) (device_token : String) (uid : Uuid)
    (now : Int) :
    ∃ r : Request Json,
      (PushNotification.Data { value := d }).build_request topic collapse_id
          device_token uid now = .ok r ∧
      r.push_type = .Background ∧
      r.content_available = true ∧
      r.priority = .ConsiderPower ∧
      r.expiration = some (now + one_day) ∧
      r.user_info = some d ∧
      r.alert = none :=
  ⟨_, rfl, rfl, rfl, rfl, rfl, rfl, rfl⟩

/-- C7: building a request from an alert notification yields Alert push
type, ConsiderPower priority, expiration one day past now, an alert made
of the title and body with subtitle absent, and badge and sound copied
through; and the conversion succeeds for every notification of either
variant and every combination of the remaining arguments. -/
theorem alert_build_request_spec (a : AlertNotification) (topic : Option String)
    (collapse_id : Option CollapseId) (device_token : String) (uid : Uuid)
    (now : Int) :
    (∃ r : Request Json,
      (PushNotification.Alert a).build_request topic collapse_id device_token
          uid now = .ok r ∧
      r.push_type = .Alert ∧
      r.priority = .ConsiderPower ∧
      r.expiration = some (now + one_day) ∧
      r.alert = some { title := a.title, body := a.body, subtitle := none } ∧
      r.badge = a.badge ∧
      r.sound = a.sound.map Sound.fromString) ∧
    (∀ n : PushNotification, ∃ r : Request Json,
      n.build_request topic collapse_id device_token uid now = .ok r) := by
  refine ⟨⟨_, rfl, rfl, rfl, rfl, rfl, rfl, rfl⟩, fun n => ?_⟩
  cases n with
  | Data d => exact ⟨_, rfl⟩
  | Alert a => exact ⟨_, rfl⟩

/-- C8: the wire rendering of Priority::High is 10 and of Priority::Normal
is 5. -/
theorem priority_display_spec :
    Priority.display .High = "10" ∧ Priority.display .Normal = "5" :=
  ⟨rfl, rfl⟩

/-- C10: for either notification variant and every uuid argument, the
built request always carries the supplied uuid as its id; the id is never
left absent. -/
theorem build_request_id_always_assigned (n : PushNotification)
    (topic : Option String) (collapse_id : Option CollapseId)
    (device_token : String) (uid : Uuid) (now : Int) :
    (n.build_request topic collapse_id device_token uid now).map
        (fun r => r.id) = .ok (some uid) := by
  cases n with
  | Data d => rfl
  | Alert a => rfl

end Apns
